import Mathlib

/-
  Shallow embedding of the speedchecker repository (src/main.py,
  src/sms_handler.py, src/config_handler.py) for checking the
  natural-language specification claims.

  Numeric values (Python floats) are modelled as rationals.  The external
  speedtest capability is modelled by an environment record giving the
  outcome of each external call; a raised exception is an `Except.error`
  outcome carrying a PyErr value.

  Load-bearing fact of the source: console_print (main.py lines 14-17)
  reads config_handler.get_general_config()["headless"], but
  get_general_config (config_handler.py lines 72-77) returns a dict with
  only the keys test_interval and jitter_range — so EVERY console_print
  call raises KeyError, for every possible configuration file.  The first
  statement of the try block of perform_speed_test is a console_print
  (main.py line 30) and the first statement of its except handler is
  another (line 118), so every perform_speed_test call raises KeyError;
  the threshold checks, retries, ping gate, sentinel return and success
  return are all dead code.  The embedding models console_print
  faithfully, so these facts are theorems here.
-/

namespace SpeedChecker

/-- Thresholds, as returned by ConfigHandler.get_thresholds (config_handler.py
lines 54-61): four floats read from the Thresholds section. -/
structure Thresholds where
  download_speed : ℚ
  upload_speed : ℚ
  ping : ℚ
  packet_loss : ℚ
deriving DecidableEq

/-- A speedtest server record: the fields of best_server / results.server
used by main.py (name, country, id, latency). -/
structure Server where
  name : String
  country : String
  id : Int
  latency : ℚ
deriving DecidableEq

/-- One probe outcome: the dict built at main.py lines 98-106 (success) or
lines 120-127 (failure sentinel). -/
structure Measurement where
  timestamp : String
  download : ℚ
  upload : ℚ
  ping : ℚ
  isp : String
  server_location : String
  server_id : Int
deriving DecidableEq

/-- The failure sentinel built by the except handler of
perform_speed_test (main.py lines 120-127).  Dead code in the source:
the handler raises at line 118 before reaching this return. -/
def failureMeasurement (ts : String) : Measurement :=
  ⟨ts, -1, -1, -1, "Error", "Error", -1⟩

/-- An alert event: one call to sms_handler.send_alert from
perform_speed_test, identified by which threshold fired, the observed
value, and the threshold (the data interpolated into the message at
main.py lines 53-56, 71-74, 88-91). -/
inductive Alert
  | lowDownload (observed threshold : ℚ)
  | lowUpload (observed threshold : ℚ)
  | highPing (observed threshold : ℚ)
deriving DecidableEq

/-- A Python exception value as far as the claims need to distinguish
them: KeyError with its key, ValueError (raised at main.py line 115 and
by time.sleep on a negative argument), and any exception raised by the
external speedtest capability. -/
inductive PyErr
  | keyError (key : String)
  | valueError
  | external
deriving DecidableEq

/-- General settings, as returned by ConfigHandler.get_general_config
(config_handler.py lines 72-77, getint on both keys). -/
structure GeneralConfig where
  test_interval : ℤ
  jitter_range : ℤ
deriving DecidableEq

/-- Embeds config_handler.py lines 72-77 (get_general_config): the
returned dict has exactly the keys test_interval and jitter_range — no
headless key. -/
def ConfigHandler.get_general_config (gc : GeneralConfig) :
    List (String × ℤ) :=
  [("test_interval", gc.test_interval), ("jitter_range", gc.jitter_range)]

/-- Python dict lookup on a small integer-valued association list; none
models a raised KeyError. -/
def dictGetZ : List (String × ℤ) → String → Option ℤ
  | [], _ => none
  | (k, v) :: rest, key => if k = key then some v else dictGetZ rest key

/-- Embeds main.py lines 14-17 (console_print): reads
config_handler.get_general_config()["headless"].  Because
get_general_config returns only test_interval and jitter_range, this
lookup raises KeyError on every call; the print at line 17 is
unreachable. -/
def console_print (_message : String) (gc : GeneralConfig) :
    Except PyErr Unit :=
  match dictGetZ (ConfigHandler.get_general_config gc) "headless" with
  | none => .error (PyErr.keyError "headless")
  | some _ => .ok ()

/-- Environment of one perform_speed_test call: the outcome of every
external interaction, in program order.  An error at a field means that
call raises when executed.  `download i` / `upload i` give the raw
bits-per-second reading of the i-th invocation of st.download() /
st.upload() (the code contains at most two of each). -/
structure SpeedtestEnv where
  thresholds : Except Unit Thresholds
  setup : Except Unit Unit
  best_server : Except Unit Server
  download : Fin 2 → Except Unit ℚ
  upload : Fin 2 → Except Unit ℚ
  ping : ℚ
  isp : String
  server : Server
  now : String

/-- Result of one perform_speed_test call: the outcome (a returned
measurement, or the exception that escapes the call), the send_alert
calls made during the call (in order), how many times st.download() /
st.upload() were invoked, and the values the local variables
download_speed / upload_speed / ping would hold at assembly time (none
when execution never reached that point). -/
structure ProbeResult where
  outcome : Except PyErr Measurement
  alerts : List Alert
  downloadCalls : ℕ
  uploadCalls : ℕ
  downloadFinal : Option ℚ
  uploadFinal : Option ℚ
  pingFinal : Option ℚ

/-- Python round(x, 2) (main.py lines 100-102).  Ties are rounded half
up here; Python rounds float ties half to even, but no claim depends on
tie behaviour. -/
def round2 (x : ℚ) : ℚ := ((⌊x * 100 + 1/2⌋ : ℤ) : ℚ) / 100

/-- Embeds main.py lines 82-115 (the try-block part): read results.ping,
fire the high-ping alert (line 87, against the raw ping), apply the ping
plausibility gate (lines 94-96), assemble the rounded result dict
(lines 98-106) and validate it (line 108).  The success branch calls
console_print at line 109 (which raises) before the return at line 113;
the else branch raises ValueError at line 115.  Either exception
propagates to the except handler modelled in perform_speed_test. -/
def pingPhase (gc : GeneralConfig) (env : SpeedtestEnv) (th : Thresholds)
    (bs : Server) (download_speed upload_speed : ℚ) (dCalls uCalls : ℕ)
    (alerts : List Alert) : ProbeResult :=
  let alerts2 := alerts ++
    (if env.ping > th.ping then [Alert.highPing env.ping th.ping] else [])
  let ping2 := if env.ping > 1000 ∨ env.ping < 1 then bs.latency else env.ping
  let test_results : Measurement :=
    ⟨env.now, round2 download_speed, round2 upload_speed, round2 ping2,
      env.isp, env.server.name ++ ", " ++ env.server.country, env.server.id⟩
  if 0 < test_results.download ∧ 0 < test_results.upload ∧
      0 < test_results.ping then
    match console_print "Test completed successfully" gc with
    | .error e =>
        ⟨.error e, alerts2, dCalls, uCalls,
          some download_speed, some upload_speed, some ping2⟩
    | .ok _ =>
        ⟨.ok test_results, alerts2, dCalls, uCalls,
          some download_speed, some upload_speed, some ping2⟩
  else
    ⟨.error PyErr.valueError, alerts2, dCalls, uCalls,
      some download_speed, some upload_speed, some ping2⟩

/-- Embeds main.py lines 66-80: the console_print at line 67 (which
raises) precedes st.upload(); the low-upload alert at line 70 fires
against the first reading, before the plausibility retry at
lines 77-80. -/
def uploadPhase (gc : GeneralConfig) (env : SpeedtestEnv) (th : Thresholds)
    (bs : Server) (download_speed : ℚ) (dCalls : ℕ) (alerts : List Alert) :
    ProbeResult :=
  match console_print "Testing upload speed" gc with
  | .error e =>
      ⟨.error e, alerts, dCalls, 0, some download_speed, none, none⟩
  | .ok _ =>
      match env.upload 0 with
      | .error _ =>
          ⟨.error PyErr.external, alerts, dCalls, 1,
            some download_speed, none, none⟩
      | .ok raw1 =>
          let upload_speed := raw1 / 1000000
          let alerts2 := alerts ++
            (if upload_speed < th.upload_speed then
              [Alert.lowUpload upload_speed th.upload_speed] else [])
          if upload_speed < 1/10 then
            match env.upload 1 with
            | .error _ =>
                ⟨.error PyErr.external, alerts2, dCalls, 2,
                  some download_speed, none, none⟩
            | .ok raw2 =>
                pingPhase gc env th bs download_speed (raw2 / 1000000)
                  dCalls 2 alerts2
          else
            pingPhase gc env th bs download_speed upload_speed dCalls 1 alerts2

/-- Embeds main.py lines 48-62: the console_print at line 49 (which
raises) precedes st.download(); the low-download alert at line 52 fires
against the first reading, before the plausibility retry at
lines 59-62. -/
def downloadPhase (gc : GeneralConfig) (env : SpeedtestEnv)
    (th : Thresholds) (bs : Server) : ProbeResult :=
  match console_print "Testing download speed" gc with
  | .error e => ⟨.error e, [], 0, 0, none, none, none⟩
  | .ok _ =>
      match env.download 0 with
      | .error _ => ⟨.error PyErr.external, [], 1, 0, none, none, none⟩
      | .ok raw1 =>
          let download_speed := raw1 / 1000000
          let alerts := if download_speed < th.download_speed then
              [Alert.lowDownload download_speed th.download_speed] else []
          if download_speed < 1/10 then
            match env.download 1 with
            | .error _ =>
                ⟨.error PyErr.external, alerts, 2, 0, none, none, none⟩
            | .ok raw2 => uploadPhase gc env th bs (raw2 / 1000000) 2 alerts
          else uploadPhase gc env th bs download_speed 1 alerts

/-- Embeds main.py lines 28-128 (perform_speed_test).  The try body
starts with console_print at line 30 (which raises KeyError), then reads
thresholds (line 34), builds the session (line 37), calls console_print
at line 40, selects the best server (line 42), calls console_print at
line 44, and runs the download, upload and ping phases.  Any exception
reaches the except handler at line 117, whose FIRST statement is the
console_print at line 118 — which itself raises KeyError, so that
exception escapes the function and the sentinel return at lines 120-127
is dead code. -/
def perform_speed_test (gc : GeneralConfig) (env : SpeedtestEnv) :
    ProbeResult :=
  let body : ProbeResult :=
    match console_print "Starting speed test" gc with
    | .error e => ⟨.error e, [], 0, 0, none, none, none⟩
    | .ok _ =>
        match env.thresholds with
        | .error _ => ⟨.error PyErr.external, [], 0, 0, none, none, none⟩
        | .ok th =>
            match env.setup with
            | .error _ => ⟨.error PyErr.external, [], 0, 0, none, none, none⟩
            | .ok _ =>
                match console_print "Getting server list" gc with
                | .error e => ⟨.error e, [], 0, 0, none, none, none⟩
                | .ok _ =>
                    match env.best_server with
                    | .error _ =>
                        ⟨.error PyErr.external, [], 0, 0, none, none, none⟩
                    | .ok bs =>
                        match console_print "Selected server" gc with
                        | .error e => ⟨.error e, [], 0, 0, none, none, none⟩
                        | .ok _ => downloadPhase gc env th bs
  match body.outcome with
  | .ok _ => body
  | .error _ =>
      match console_print "Error during speed test" gc with
      | .error e2 =>
          ⟨.error e2, body.alerts, body.downloadCalls, body.uploadCalls,
            body.downloadFinal, body.uploadFinal, body.pingFinal⟩
      | .ok _ =>
          ⟨.ok (failureMeasurement env.now), body.alerts,
            body.downloadCalls, body.uploadCalls,
            body.downloadFinal, body.uploadFinal, body.pingFinal⟩

/-- A row of the metrics CSV file: the header row written by
writer.writeheader, or one data row written by writer.writerow (a data
row renders numeric fields as numbers, so it never equals the header
row). -/
inductive CsvRow
  | header
  | data (m : Measurement)
deriving DecidableEq

/-- Embeds the file-content effect of main.py lines 130-148
(save_to_csv): the metrics file as `Option (List CsvRow)` (none = file
does not exist).  The code checks os.path.exists, opens in append mode
(creating the file if needed), writes the header exactly when the file
did not exist, then appends one data row.  These writes all complete
before the console_print at line 144 raises; the raise itself is
modelled separately by save_to_csv_raises. -/
def save_to_csv (data : Measurement) (file : Option (List CsvRow)) :
    Option (List CsvRow) :=
  match file with
  | none => some [CsvRow.header, CsvRow.data data]
  | some rows => some (rows ++ [CsvRow.data data])

/-- Embeds the control-flow effect of main.py lines 130-148
(save_to_csv): after the writes succeed, the console_print at line 144
raises KeyError inside the try; the except at line 146 catches it, and
the console_print at line 147 raises KeyError again, which escapes the
function.  So every call appends its row and then raises. -/
def save_to_csv_raises (gc : GeneralConfig) : Except PyErr Unit :=
  match console_print "Data saved" gc with
  | .error _ =>
      match console_print "Error saving to CSV" gc with
      | .error e2 => .error e2
      | .ok _ => .ok ()
  | .ok _ => .ok ()

/-- Observable outcome of one iteration of the while-loop body of main
(main.py lines 179-204): how many times save_to_csv was invoked, the
computed next_test value if execution reached its assignment, the
argument of an executed time.sleep if any, and the exception escaping
the iteration (which kills the loop) if any. -/
structure LoopOutcome where
  saveCalls : ℕ
  next_test : Option ℚ
  sleepSeconds : Option ℚ
  escaped : Option PyErr
deriving DecidableEq

/-- Embeds one iteration of the main loop body (main.py lines 179-204)
with the drawn jitter as a parameter.  perform_speed_test raises; in the
(dead) branches: a valid result calls save_to_csv (line 189, which
raises after writing), then computes next_test (line 190); an invalid
result calls console_print (line 192, raises) then sets next_test = 300;
both join at the console_print of line 196 (raises) before
time.sleep(next_test) at line 198 (which raises ValueError when
next_test is negative).  Any exception reaches the except handler at
line 200, whose first statement console_print (line 201) raises again
before the time.sleep(60) at line 203, so the exception escapes the
loop. -/
def main_loop_iteration (gc : GeneralConfig) (env : SpeedtestEnv)
    (jitter : ℚ) : LoopOutcome :=
  let body : LoopOutcome :=
    match (perform_speed_test gc env).outcome with
    | .error e => ⟨0, none, none, some e⟩
    | .ok results =>
        if 0 < results.download then
          match save_to_csv_raises gc with
          | .error e => ⟨1, none, none, some e⟩
          | .ok _ =>
              let next_test : ℚ := (gc.test_interval : ℚ) + jitter
              match console_print "Waiting for next test" gc with
              | .error e => ⟨1, some next_test, none, some e⟩
              | .ok _ =>
                  if next_test < 0 then
                    ⟨1, some next_test, none, some PyErr.valueError⟩
                  else ⟨1, some next_test, some next_test, none⟩
        else
          match console_print "Invalid results detected" gc with
          | .error e => ⟨0, none, none, some e⟩
          | .ok _ =>
              match console_print "Waiting for next test" gc with
              | .error e => ⟨0, some 300, none, some e⟩
              | .ok _ => ⟨0, some 300, some 300, none⟩
  match body.escaped with
  | none => body
  | some _ =>
      match console_print "Error in main loop" gc with
      | .error e2 => ⟨body.saveCalls, body.next_test, none, some e2⟩
      | .ok _ => ⟨body.saveCalls, body.next_test, some 60, none⟩

/-- The Alert Dispatcher state (sms_handler.py lines 6-10): the four
attributes stored by SMSHandler.__init__. -/
structure SMSHandler where
  enabled : Bool
  phone_number : String
  provider : String
  api_key : String
deriving DecidableEq

/-- Log level of a logging call made by SMSHandler. -/
inductive LogLevel
  | info
  | error
deriving DecidableEq

/-- Embeds sms_handler.py lines 55-62 (the Twilio placeholder): logs and
returns False without any outbound request. -/
def SMSHandler.send_twilio (_h : SMSHandler) (_message : String) :
    Bool × List (LogLevel × String) :=
  (false, [(LogLevel.info, "Twilio SMS implementation needed")])

/-- Embeds sms_handler.py lines 64-71 (the Nexmo placeholder): logs and
returns False without any outbound request. -/
def SMSHandler.send_nexmo (_h : SMSHandler) (_message : String) :
    Bool × List (LogLevel × String) :=
  (false, [(LogLevel.info, "Nexmo SMS implementation needed")])

/-- ASCII lower-casing of one character, as Python str.lower does on the
ASCII provider names handled here. -/
def lowerChar (c : Char) : Char :=
  if 65 ≤ c.toNat ∧ c.toNat ≤ 90 then Char.ofNat (c.toNat + 32) else c

/-- Python str.lower restricted to ASCII (the provider names compared at
sms_handler.py lines 44-46 are ASCII). -/
def pyLower (s : String) : String := String.mk (s.data.map lowerChar)

/-- Embeds sms_handler.py lines 37-53 (Python name with a leading
underscore): dispatch on provider.lower(); an unsupported provider logs
an error and returns None. -/
def SMSHandler.send_sms (h : SMSHandler) (message : String) :
    Option Bool × List (LogLevel × String) :=
  if pyLower h.provider = "twilio" then
    let r := h.send_twilio message
    (some r.1, r.2)
  else if pyLower h.provider = "nexmo" then
    let r := h.send_nexmo message
    (some r.1, r.2)
  else
    (none, [(LogLevel.error, "Unsupported SMS provider: " ++ h.provider)])

/-- Embeds sms_handler.py lines 12-35 (send_alert): disabled handlers and
incomplete configuration return False early; otherwise the result of the
internal send is converted to a Bool (`if response:` — both None and
False map to False).  Every branch of the Python body returns a bool,
and sms_handler.py contains no console_print, so the embedding is a
total function: no exception escapes. -/
def SMSHandler.send_alert (h : SMSHandler) (message : String) :
    Bool × List (LogLevel × String) :=
  if h.enabled = false then
    (false, [(LogLevel.info, "SMS alerts are disabled")])
  else if h.phone_number = "" ∨ h.provider = "" ∨ h.api_key = "" then
    (false, [(LogLevel.error, "SMS configuration incomplete")])
  else
    match h.send_sms message with
    | (some true, logs) =>
        (true, logs ++ [(LogLevel.info, "SMS alert sent successfully: " ++ message)])
    | (some false, logs) => (false, logs)
    | (none, logs) => (false, logs)

/-- A value stored in the config dict returned by get_sms_config
(a Python bool or str). -/
inductive ConfigVal
  | bool (b : Bool)
  | str (s : String)
deriving DecidableEq

/-- Python dict lookup on a small association list; none models a raised
KeyError. -/
def dictGet : List (String × ConfigVal) → String → Option ConfigVal
  | [], _ => none
  | (k, v) :: rest, key => if k = key then some v else dictGet rest key

/-- Embeds config_handler.py lines 63-70 (get_sms_config): the returned
dict has exactly the keys enabled, chat_id, provider, api_key. -/
def ConfigHandler.get_sms_config (enabled : Bool)
    (chat_id provider api_key : String) : List (String × ConfigVal) :=
  [("enabled", ConfigVal.bool enabled),
   ("chat_id", ConfigVal.str chat_id),
   ("provider", ConfigVal.str provider),
   ("api_key", ConfigVal.str api_key)]

/-- Embeds sms_handler.py lines 6-10 (SMSHandler.__init__): reads the
keys enabled, phone_number, provider, api_key from the config dict in
order; a missing key raises KeyError, modelled as none. -/
def SMSHandler.fromConfig (config : List (String × ConfigVal)) :
    Option (ConfigVal × ConfigVal × ConfigVal × ConfigVal) := do
  let enabled ← dictGet config "enabled"
  let phone_number ← dictGet config "phone_number"
  let provider ← dictGet config "provider"
  let api_key ← dictGet config "api_key"
  pure (enabled, phone_number, provider, api_key)

/-- Default thresholds of the generated config
(config_handler.py lines 16-21). -/
def th0 : Thresholds := ⟨50, 10, 100, 1⟩

/-- A concrete server record used by the concrete environments below. -/
def bs0 : Server := ⟨"Srv", "Land", 7, 50⟩

/-- Concrete environment: both download readings and both upload readings
are 0 bits per second, ping 50 ms — the scenario the spec calls an
invalid measurement. -/
def envC1 : SpeedtestEnv :=
  ⟨.ok th0, .ok (), .ok bs0, fun _ => .ok 0, fun _ => .ok 0,
    50, "ISP", bs0, "2026-01-01 00:00:00"⟩

/-- Concrete environment whose external capability would produce a fully
valid measurement: 50 Mbps download, 20 Mbps upload, 50 ms ping. -/
def envValid : SpeedtestEnv :=
  ⟨.ok th0, .ok (), .ok bs0, fun _ => .ok 50000000, fun _ => .ok 20000000,
    50, "ISP", bs0, "2026-01-01 00:00:00"⟩

/-- Concrete environment whose download readings are both 0.05 Mbps
(raw 50000 bits per second) — the scenario in which the spec expects the
implausible-reading retry to fire once. -/
def envRetry : SpeedtestEnv :=
  ⟨.ok th0, .ok (), .ok bs0, fun _ => .ok 50000, fun _ => .ok 20000000,
    50, "ISP", bs0, "2026-01-01 00:00:00"⟩

/-- Concrete environment with a session ping of exactly 1 ms (the
boundary of the plausibility interval) and a best-server latency of
50 ms. -/
def envPing1 : SpeedtestEnv :=
  ⟨.ok th0, .ok (), .ok bs0, fun _ => .ok 50000000, fun _ => .ok 20000000,
    1, "ISP", bs0, "2026-01-01 00:00:00"⟩

/-! Helper lemmas -/

lemma console_print_raises (message : String) (gc : GeneralConfig) :
    console_print message gc = Except.error (PyErr.keyError "headless") := by
  simp [console_print, ConfigHandler.get_general_config, dictGetZ]

lemma save_to_csv_raises_eq (gc : GeneralConfig) :
    save_to_csv_raises gc = Except.error (PyErr.keyError "headless") := by
  simp [save_to_csv_raises, console_print_raises]

lemma perform_speed_test_eq (gc : GeneralConfig) (env : SpeedtestEnv) :
    perform_speed_test gc env
      = ⟨Except.error (PyErr.keyError "headless"), [], 0, 0,
          none, none, none⟩ := by
  simp [perform_speed_test, console_print_raises]

lemma main_loop_iteration_eq (gc : GeneralConfig) (env : SpeedtestEnv)
    (jitter : ℚ) :
    main_loop_iteration gc env jitter
      = ⟨0, none, none, some (PyErr.keyError "headless")⟩ := by
  simp [main_loop_iteration, perform_speed_test_eq, console_print_raises]

lemma send_sms_never_true (h : SMSHandler) (message : String) :
    (h.send_sms message).1 = some false ∨ (h.send_sms message).1 = none := by
  unfold SMSHandler.send_sms SMSHandler.send_twilio SMSHandler.send_nexmo
  split_ifs <;> simp

lemma save_to_csv_foldl_some (ms : List Measurement) (rows : List CsvRow) :
    List.foldl (fun f m => save_to_csv m f) (some rows) ms
      = some (rows ++ ms.map CsvRow.data) := by
  induction ms generalizing rows with
  | nil => simp
  | cons m rest ih =>
      simp only [List.foldl_cons, List.map_cons]
      have hstep : save_to_csv m (some rows) = some (rows ++ [CsvRow.data m]) := rfl
      rw [hstep, ih]
      simp

/-! Claim theorems -/

/-- Claim C1: for every measurement in which any of download, upload, or
ping is ≤ 0, send_alert is never invoked during its probe cycle.  This
holds a fortiori: send_alert is never invoked during ANY probe cycle,
because the console_print at main.py line 30 raises KeyError (the
headless key is absent from every get_general_config result) before the
first threshold check can run. -/
theorem C1_probe_never_alerts (gc : GeneralConfig) (env : SpeedtestEnv) :
    (perform_speed_test gc env).alerts = [] := by
  rw [perform_speed_test_eq]

/-- Claim C2: constructing the alert dispatcher from the configuration
object returned by ConfigHandler.get_sms_config always raises a KeyError
(modelled as none), because SMSHandler.__init__ reads the key
phone_number while get_sms_config produces the key chat_id; so
SMSHandler(config_handler.get_sms_config()) never completes normally for
any configuration. -/
theorem C2_sms_init_keyerror (enabled : Bool)
    (chat_id provider api_key : String) :
    SMSHandler.fromConfig
      (ConfigHandler.get_sms_config enabled chat_id provider api_key) = none := by
  simp [SMSHandler.fromConfig, ConfigHandler.get_sms_config, dictGet]

/-- Claim C3 (code bug): the claim says perform_speed_test returns the
failure sentinel on any internal exception and lets no exception escape.
Evaluating the code at the failing input shows otherwise: every call —
here the general config (1200, 60) with environment envC1 — escapes with
KeyError raised by the console_print of the except handler (main.py
line 118), because the headless key is absent from get_general_config;
the sentinel return at lines 120-127 is dead code. -/
theorem C3_sentinel_never_returned :
    (perform_speed_test ⟨1200, 60⟩ envC1).outcome
      = Except.error (PyErr.keyError "headless") := by
  rw [perform_speed_test_eq]

/-- Claim C4 (code bug): the claim says a first download reading under
0.1 Mbps causes exactly one retry of the sub-probe.  Evaluating the code
at the failing input — envRetry, whose download readings are both
0.05 Mbps — shows st.download() is never invoked at all (downloadCalls
and uploadCalls are 0): the console_print at main.py lines 30 and 49
raises KeyError first, so the retry logic at lines 59-62 and 77-80 is
dead code. -/
theorem C4_subprobe_never_runs :
    (perform_speed_test ⟨1200, 60⟩ envRetry).downloadCalls = 0
    ∧ (perform_speed_test ⟨1200, 60⟩ envRetry).uploadCalls = 0
    ∧ (perform_speed_test ⟨1200, 60⟩ envRetry).outcome
        = Except.error (PyErr.keyError "headless") := by
  rw [perform_speed_test_eq]
  exact ⟨rfl, rfl, rfl⟩

/-- Claim C5 (code bug): the claim says an invalid-measurement cycle
skips persistence and sleeps the fixed 300 second cooldown.  Evaluating
one loop iteration at the failing input (general config (1200, 60),
environment envC1, jitter 30) shows save_to_csv is indeed never invoked,
but no 300 second sleep occurs either: the probe raises KeyError, the
loop except handler raises KeyError again at main.py line 201 before any
time.sleep, and the exception escapes the loop. -/
theorem C5_cooldown_never_reached :
    main_loop_iteration ⟨1200, 60⟩ envC1 30
      = ⟨0, none, none, some (PyErr.keyError "headless")⟩ :=
  main_loop_iteration_eq ⟨1200, 60⟩ envC1 30

/-- Claim C6 (code bug): the claim says the next-cycle delay is computed
as interval + jitter and clamped to zero before sleeping when negative.
Evaluating one loop iteration at the failing input (general config
(10, 60), environment envValid, jitter -60 — the configuration in which
the claimed clamp would matter) shows next_test is never computed
(next_test = none) and no sleep of any duration is executed: the probe
raises KeyError and the loop except handler raises again at main.py
line 201 before time.sleep(60); the dead assignment at line 190 also
contains no clamp. -/
theorem C6_delay_never_computed :
    main_loop_iteration ⟨10, 60⟩ envValid (-60)
      = ⟨0, none, none, some (PyErr.keyError "headless")⟩ :=
  main_loop_iteration_eq ⟨10, 60⟩ envValid (-60)

/-- Claim C7: starting from a non-existent metrics file, a sequence of N
appends (save_to_csv) produces exactly one header row followed by the N
data rows in append order; in particular two consecutive appends never
produce two header rows, and existing rows are never rewritten or
reordered. -/
theorem C7_csv_append (ms : List Measurement) (hms : ms ≠ []) :
    List.foldl (fun f m => save_to_csv m f) none ms
      = some (CsvRow.header :: ms.map CsvRow.data)
    ∧ (CsvRow.header :: ms.map CsvRow.data).count CsvRow.header = 1 := by
  constructor
  · rcases ms with _ | ⟨m, rest⟩
    · exact absurd rfl hms
    · simp only [List.foldl_cons, List.map_cons]
      have hstep : save_to_csv m none = some [CsvRow.header, CsvRow.data m] := rfl
      rw [hstep, save_to_csv_foldl_some]
      simp
  · have hz : (ms.map CsvRow.data).count CsvRow.header = 0 := by
      rw [List.count_eq_zero]
      intro hmem
      rcases List.mem_map.mp hmem with ⟨m, _, hm⟩
      exact CsvRow.noConfusion hm
    simp [List.count_cons, hz]

/-- Witness for C7 at a concrete one-element append sequence. -/
theorem C7_csv_append_witness :
    List.foldl (fun f m => save_to_csv m f) none [failureMeasurement "t"]
      = some [CsvRow.header, CsvRow.data (failureMeasurement "t")] :=
  (C7_csv_append [failureMeasurement "t"] (by simp)).1

/-- Claim C8: send_alert always returns a Bool (the embedding is a total
function, mirroring that every Python branch returns a bool and all
fallible work is wrapped in try/except); when alerts are disabled it
returns false having only logged the disabled notice (no outbound call);
when alerts are enabled but any of the recipient identity, provider, or
credential is empty it returns false after logging the configuration
error. -/
theorem C8_send_alert_guards (h : SMSHandler) (message : String) :
    (h.enabled = false →
      h.send_alert message = (false, [(LogLevel.info, "SMS alerts are disabled")]))
    ∧ (h.enabled = true →
        (h.phone_number = "" ∨ h.provider = "" ∨ h.api_key = "") →
        h.send_alert message
          = (false, [(LogLevel.error, "SMS configuration incomplete")])) := by
  constructor
  · intro he
    unfold SMSHandler.send_alert
    rw [if_pos he]
  · intro he hempty
    unfold SMSHandler.send_alert
    rw [if_neg (by simp [he]), if_pos hempty]

/-- Witness for C8 at a concrete disabled handler. -/
theorem C8_send_alert_guards_witness :
    SMSHandler.send_alert ⟨false, "555", "twilio", "key"⟩ "msg"
      = (false, [(LogLevel.info, "SMS alerts are disabled")]) :=
  (C8_send_alert_guards ⟨false, "555", "twilio", "key"⟩ "msg").1 rfl

/-- Claim C9: for every message and every dispatcher configuration,
send_alert returns false — the twilio and nexmo placeholder paths return
False, any other provider yields None which send_alert converts to
False, and the disabled and misconfigured paths return False; no
execution of send_alert ever returns true. -/
theorem C9_send_alert_always_false (h : SMSHandler) (message : String) :
    (h.send_alert message).1 = false := by
  have hs := send_sms_never_true h message
  unfold SMSHandler.send_alert
  split_ifs
  · rfl
  · rfl
  · rcases hsms : h.send_sms message with ⟨b, logs⟩
    rw [hsms] at hs
    rcases b with _ | b
    · simp
    · rcases b with _ | _
      · simp
      · simp at hs

/-- Claim C10 (code bug): the claim says a latency reading outside
(1, 1000) ms taken from the session result object is replaced by the
best-server latency.  Evaluating the code at the failing input —
envPing1, whose session ping is 1 ms and whose best-server latency is
50 ms — shows the session ping is never read (pingFinal = none) and the
call escapes with KeyError raised at main.py line 30 before st.results
is touched: the plausibility gate at line 94 is dead code. -/
theorem C10_ping_gate_dead :
    (perform_speed_test ⟨1200, 60⟩ envPing1).pingFinal = none
    ∧ (perform_speed_test ⟨1200, 60⟩ envPing1).outcome
        = Except.error (PyErr.keyError "headless") := by
  rw [perform_speed_test_eq]
  exact ⟨rfl, rfl⟩

end SpeedChecker
